import Mathlib

/-!
Verification of the token-lifecycle and rate-limiting subsystem of the
ai-code-review-assistant repository (API Gateway + User Service), via a
shallow embedding of the relevant JavaScript functions.

Conventions used throughout the embedding:
* wall-clock instants are natural numbers; `iat`/`exp` claims of a JWT and
  Redis TTL arithmetic are in seconds, `Date.now()` values and
  `password_changed_at` are in milliseconds, exactly as in the source;
* a Redis key set with `SETEX key ttl v` at second `t` is readable at any
  second `now < t + ttl` and gone afterwards;
* `jwt.verify` is modelled as: signature check first (`sigOk` field), then
  the expiry check `now ≥ exp` (a `TokenExpiredError`), as the jsonwebtoken
  library does;
* store calls that may fail are modelled with explicit boolean flags
  (`storeErr`, `redisReady`) mirroring the `try/catch` and
  `redisClient.isReady` guards of the source.
-/

namespace AiCodeReview

/-- A user row as read by `User.findById` / `User.findByEmail`
(user-service): the fields the auth middleware consumes.
`password_changed_at` is a JavaScript `Date`, i.e. milliseconds. -/
structure UserRec where
  id : Nat
  is_active : Bool
  password_changed_at : Option Nat
deriving DecidableEq, Repr

/-- The payload of a decoded access token: `userId`, `iat` and `exp` are in
seconds (JWT claims). `sigOk` models whether `jwt.verify` accepts the
signature (a malformed or wrongly-signed token has `sigOk = false`). -/
structure Token where
  userId : Nat
  iat : Nat
  exp : Nat
  sigOk : Bool
deriving DecidableEq, Repr

/-- Outcome of the user-service `authenticateToken` middleware
(src/user-service middleware/auth): each constructor is one of the early
returns of the source, in source order. `noToken`, `revoked`,
`expired`, `invalidToken`, `userNotFound`, `passwordChanged` are 401
responses, `accountDisabled` is 403, `serverError` is the 500 of the outer
`catch`, and `ok u` means `next()` was called with `req.user = u`. -/
inductive AuthResult where
  | noToken
  | revoked
  | expired
  | invalidToken
  | userNotFound
  | accountDisabled
  | passwordChanged
  | serverError
  | ok (u : UserRec)
deriving DecidableEq, Repr

/-- Shallow embedding of `authenticateToken`
(user-service middleware/auth). Steps, in source order:
token extraction; blacklist lookup (`blacklisted_token:<token>`; a store
error there is caught by the outer `catch` and yields the 500 —
`storeErr`); `jwt.verify` (signature, then expiry); `User.findById`;
`is_active`; and the `decoded.iat < Math.floor(password_changed_at/1000)`
staleness comparison. `now` is in seconds, `password_changed_at` in
milliseconds. -/
def authenticateToken (storeErr : Bool) (findById : Nat → Option UserRec)
    (blacklisted : Bool) (tok : Option Token) (now : Nat) : AuthResult :=
  match tok with
  | none => .noToken
  | some t =>
    if storeErr then .serverError
    else if blacklisted then .revoked
    else if !t.sigOk then .invalidToken
    else if t.exp ≤ now then .expired
    else
      match findById t.userId with
      | none => .userNotFound
      | some u =>
        if !u.is_active then .accountDisabled
        else
          match u.password_changed_at with
          | some pca => if t.iat < pca / 1000 then .passwordChanged else .ok u
          | none => .ok u

/-- Fixed TTL, in seconds, of the blacklist entry written by
`AuthController.logout`: `redisClient.setex('blacklisted_token:'+token,
24*60*60, "true")` — 24 hours, independent of the token. -/
def logoutBlacklistTtl : Nat := 24 * 60 * 60

/-- Absolute expiry second of the blacklist entry created by `logout` at
second `logoutTime`. -/
def logoutBlacklistExpiry (logoutTime : Nat) : Nat :=
  logoutTime + logoutBlacklistTtl

/-- Whether the `blacklisted_token:<token>` key written by `logout` at
`logoutTime` is still present at second `now` (Redis TTL semantics). -/
def logoutBlacklisted (logoutTime now : Nat) : Bool :=
  now < logoutBlacklistExpiry logoutTime

/-- Verification by `authenticateToken` at second `t2` of the very token
that `AuthController.logout` blacklisted at second `logoutTime` (no store
failure). -/
def verifyAfterLogout (findById : Nat → Option UserRec) (t : Token)
    (logoutTime t2 : Nat) : AuthResult :=
  authenticateToken false findById (logoutBlacklisted logoutTime t2) (some t) t2

/-- Outcome of the API-gateway `verifyToken` middleware
(gateway middleware/auth): `authError` is the generic 401 `AUTH_ERROR`
branch of the `catch` for non-JWT errors (e.g. a Redis call throwing).
`ok` means `next()` was called. The middleware never produces a 503. -/
inductive GwResult where
  | noToken
  | revoked
  | expired
  | invalidToken
  | authError
  | ok
deriving DecidableEq, Repr

/-- The `jwt.verify` step of the gateway `verifyToken`, followed by the
source's redundant manual re-check `decoded.exp < currentTime` (kept for
faithfulness; it is unreachable because `jwt.verify` already throws
`TokenExpiredError` whenever `now ≥ exp`). -/
def gwCheckJwt (t : Token) (now : Nat) : GwResult :=
  if !t.sigOk then .invalidToken
  else if t.exp ≤ now then .expired
  else if t.exp < now then .expired
  else .ok

/-- Shallow embedding of the gateway `verifyToken` middleware.
The blacklist lookup is guarded by `if (redisClient && redisClient.isReady)`
— when the store is not ready the revocation check is skipped entirely and
verification proceeds with `jwt.verify`. When the store is ready but the
call throws (`storeErr`), the outer `catch` returns the 401 `AUTH_ERROR`. -/
def gwVerifyToken (redisReady storeErr blacklisted : Bool)
    (tok : Option Token) (now : Nat) : GwResult :=
  match tok with
  | none => .noToken
  | some t =>
    if redisReady then
      if storeErr then .authError
      else if blacklisted then .revoked
      else gwCheckJwt t now
    else gwCheckJwt t now

/-- TTL computed by the gateway `blacklistToken` helper:
`decoded.exp - Math.floor(Date.now()/1000)`, as an integer (it can be
negative for an already-expired token). -/
def blacklistTokenTtl (t : Token) (now : Nat) : Int :=
  (t.exp : Int) - (now : Int)

/-- The revocation entry written by the gateway `blacklistToken` helper at
second `now`: when the computed TTL is positive it writes
`SETEX blacklist:<token> ttl "true"`, producing an entry that expires at
the absolute second `now + ttl`; otherwise no entry is written. -/
def blacklistTokenEntry (t : Token) (now : Nat) : Option Nat :=
  if blacklistTokenTtl t now > 0 then some (now + (t.exp - now)) else none

/-- State of one Redis rate-limit counter key: its integer value and the
absolute second at which it expires (`none` while no TTL is attached; a key
with `count = 0` stands for an absent key). -/
structure Counter where
  count : Nat
  expiresAt : Option Nat
deriving DecidableEq, Repr

/-- An absent key: no request has been counted in the current cycle. -/
def freshCounter : Counter := ⟨0, none⟩

/-- Whether the Redis key is still present at second `now`: it must have
been written (`count > 0`) and its TTL, if any, must not have elapsed. -/
def counterLive (c : Counter) (now : Nat) : Bool :=
  0 < c.count &&
    match c.expiresAt with
    | none => true
    | some e => now < e

/-- Shallow embedding of `RedisStore.increment`
(api-gateway middleware/rateLimiter): `INCR` the key (an absent or expired
key restarts from 0), and only when the post-increment value is exactly 1
attach `EXPIRE key ceil(windowMs/1000)`. Returns the new key state and
`totalHits`. `wsec = ceil(windowMs/1000)` and `now` is in seconds. -/
def storeIncrement (wsec : Nat) (c : Counter) (now : Nat) : Counter × Nat :=
  let live := counterLive c now
  let cur := (if live then c.count else 0) + 1
  let c1 : Counter := ⟨cur, if live then c.expiresAt else none⟩
  if cur = 1 then (⟨cur, some (now + wsec)⟩, cur) else (c1, cur)

/-- Decision of a rate limiter on one request. -/
inductive RateDecision where
  | allowed
  | rejected429
deriving DecidableEq, Repr

/-- One gateway rate-limited request. The counter update is the source's
`RedisStore.increment`; the admission rule is the `express-rate-limit`
contract as the spec states it: the request passes iff the post-increment
value `totalHits` does not exceed `max`, and otherwise the handler sends
the 429 response — the increment is never rolled back (the `skip*` options
that would trigger `decrement` are not set on any limiter tier). Returns
the new counter, the decision, and `totalHits`. -/
def gwRequest (wsec max : Nat) (c : Counter) (now : Nat) :
    Counter × RateDecision × Nat :=
  let r := storeIncrement wsec c now
  (r.1, if r.2 ≤ max then RateDecision.allowed else .rejected429, r.2)

/-- Run a sequence of gateway rate-limited requests at the given instants,
collecting the per-request decisions. -/
def gwRun (wsec max : Nat) : Counter → List Nat → Counter × List RateDecision
  | c, [] => (c, [])
  | c, t :: ts =>
    let r := gwRequest wsec max c t
    let rest := gwRun wsec max r.1 ts
    (rest.1, r.2.1 :: rest.2)

/-- The totalHits reported by `RedisStore.increment` when the Redis client
is absent/not ready, and equally when the `INCR` round-trip throws: both
paths return `{ totalHits: 1, timeToExpire: windowMs }`. -/
def storeIncrementUnavailable : Nat := 1

/-- A gateway rate-limited request while the Counter Store is unreachable
or erroring: the store reports `totalHits = 1` and the admission rule then
compares it to `max`. -/
def gwRequestUnavailable (max : Nat) : RateDecision :=
  if storeIncrementUnavailable ≤ max then .allowed else .rejected429

/-- State of one user-service rate-limit bucket (the Redis key
`ratelimit:<id>:<windowStart>` of the user-service `rateLimiter`
middleware). -/
structure USBucket where
  count : Nat
  expiresAt : Option Nat
deriving DecidableEq, Repr

/-- The wall-clock-aligned window start used in the user-service
`rateLimiter` key: `Math.floor(Date.now() / windowMs) * windowMs`
(milliseconds). -/
def usWindowStart (windowMs now : Nat) : Nat := now / windowMs * windowMs

/-- One request through the user-service `rateLimiter` middleware, for the
bucket of the current aligned window. The middleware `GET`s the current
count and rejects with 429 when `requests >= max` — without touching the
counter. Otherwise it calls `next()` and, on response `finish` (with both
`skip*` options at their `false` defaults), `INCR`s the key and re-issues
`EXPIRE key ceil(windowMs/1000)` — on every counted request, not only the
first. `now` is the second of the response `finish`. -/
def usRequest (windowMs max : Nat) (b : USBucket) (now : Nat) :
    USBucket × RateDecision :=
  if max ≤ b.count then (b, .rejected429)
  else (⟨b.count + 1, some (now + (windowMs + 999) / 1000)⟩, .allowed)

/-- The user-service `rateLimiter` when any store call throws: the `catch`
logs and calls `next()` — the request is admitted. -/
def usRequestOnError : RateDecision := .allowed

/-- The full key space of the user-service `rateLimiter` for one client:
the Redis keys `ratelimit:<id>:<windowStart>`, one counter per aligned
window start, mapped to their current integer value (0 for an absent
key). TTLs are not part of this view for two reasons that make it exact:
a key of a PAST window start is never read again (the window start is
nondecreasing in the clock), and within a window the key cannot expire
before the window ends — each counted request at second `t` re-issues
`EXPIRE` for `ceil(windowMs/1000)` seconds, which reaches at least
`windowStart + windowMs`. -/
def USStore : Type := Nat → Nat

/-- One request through the user-service `rateLimiter`, acting on the
keyed store: the bucket consulted and updated is the one of
`usWindowStart windowMs now` — `GET`, reject with 429 when
`requests >= max` (no write), otherwise `INCR` that bucket on response
finish. -/
def usStoreRequest (windowMs max : Nat) (s : USStore) (now : Nat) :
    USStore × RateDecision :=
  let ws := usWindowStart windowMs now
  if max ≤ s ws then (s, .rejected429)
  else (fun w => if w = ws then s ws + 1 else s w, .allowed)

/-- Outcome of the user-service `checkFailedAttempts` middleware:
`next` (request passes on), 429 `ACCOUNT_LOCKED`, or 429 `IP_BLOCKED`. -/
inductive CheckResult where
  | next
  | accountLocked429
  | ipBlocked429
deriving DecidableEq, Repr

/-- Shallow embedding of `checkFailedAttempts`
(user-service middleware/auth). With no `email` in the body it calls
`next()` immediately, before any store read. Otherwise it resolves the
user by email, reads `failed_attempts:user:<id>` (0 when the user does not
exist or the key is absent) and `failed_attempts:ip:<ip>` (0 when absent),
and rejects with 429 `ACCOUNT_LOCKED` when the user counter has reached 5,
else 429 `IP_BLOCKED` when the IP counter has reached 10, else `next()`.
`userAttempts`/`ipAttempts` give the current Redis counter values. -/
def checkFailedAttempts (findByEmail : String → Option UserRec)
    (userAttempts : Nat → Nat) (ipAttempts : String → Nat)
    (email : Option String) (ip : String) : CheckResult :=
  match email with
  | none => .next
  | some e =>
    let ua := match findByEmail e with
      | some u => userAttempts u.id
      | none => 0
    if 5 ≤ ua then .accountLocked429
    else if 10 ≤ ipAttempts ip then .ipBlocked429
    else .next

/-- The user-service `checkFailedAttempts` when a store read throws: the
`catch` logs and calls `next()` — the request is admitted. -/
def checkFailedAttemptsOnError : CheckResult := .next

/-- Outcome of a `POST /auth/login` request as produced by the
`checkFailedAttempts` middleware followed by `AuthController.login`. -/
inductive LoginResult where
  | locked429
  | ipBlocked429
  | badRequest400
  | userNotFound401
  | accountDisabled403
  | incorrectPassword401
  | success
deriving DecidableEq, Repr

/-- Shallow embedding of the `AuthController.login` handler body:
`User.findByEmail` (401 `USER_NOT_FOUND`), `is_active` (403
`ACCOUNT_DISABLED`), then `user.verifyPassword` — on mismatch the failure
counters are incremented and the reply is 401 `INCORRECT_PASSWORD`;
on match the counters are reset and tokens are issued (`success`).
`pwOk u.id pw` models `user.verifyPassword(pw)`. -/
def loginHandler (findByEmail : String → Option UserRec)
    (pwOk : Nat → String → Bool) (email pw : String) : LoginResult :=
  match findByEmail email with
  | none => .userNotFound401
  | some u =>
    if !u.is_active then .accountDisabled403
    else if !pwOk u.id pw then .incorrectPassword401
    else .success

/-- The `POST /auth/login` route pipeline (user-service routes/auth):
`checkFailedAttempts` runs before `validate(loginSchema)` (which rejects a
body without `email` with 400) and before the `login` handler, so a locked
identity is rejected before the password is ever checked. -/
def loginPipeline (findByEmail : String → Option UserRec)
    (userAttempts : Nat → Nat) (ipAttempts : String → Nat)
    (pwOk : Nat → String → Bool)
    (email : Option String) (ip pw : String) : LoginResult :=
  match checkFailedAttempts findByEmail userAttempts ipAttempts email ip with
  | .accountLocked429 => .locked429
  | .ipBlocked429 => .ipBlocked429
  | .next =>
    match email with
    | none => .badRequest400
    | some e => loginHandler findByEmail pwOk e pw

/-- A refresh token as decoded by `jwt.verify(refreshToken,
JWT_REFRESH_SECRET)`: its sole payload claim is the user id; `sigOk`
models signature/expiry acceptance by `jwt.verify`; `nonce` distinguishes
distinct issued token strings (the Redis comparison
`storedToken !== refreshToken` is string equality). -/
structure RToken where
  userId : Nat
  nonce : Nat
  sigOk : Bool
deriving DecidableEq, Repr

/-- The refresh-token store: the Redis keys `refresh_token:<userId>`, one
value per user id. -/
def RStore : Type := Nat → Option RToken

/-- Writing `refresh_token:<uid>` (the `redisClient.set`/`setex` calls of
`register` step 5, `login` step 6 and `refreshToken` step 5): the single
per-identity key is overwritten. -/
def storeSetRefresh (s : RStore) (uid : Nat) (t : RToken) : RStore :=
  fun u => if u = uid then some t else s u

/-- Outcome of `AuthController.refreshToken`. -/
inductive RefreshResult where
  | missing400
  | invalid401
  | mismatch401
  | userInvalid401
  | success (newTok : RToken)
deriving DecidableEq, Repr

/-- Shallow embedding of `AuthController.refreshToken`: require a body
token (400), `jwt.verify` it (401), compare it with the stored
`refresh_token:<userId>` — absent or different stored value is a 401 —
then check the user exists and is active (401), and finally mint and store
a new refresh token (`mint uid` models `user.generateRefreshToken()`) and
answer 200 with the new pair. Returns the response and the store after the
request. -/
def refreshEndpoint (s : RStore) (findById : Nat → Option UserRec)
    (presented : Option RToken) (mint : Nat → RToken) :
    RefreshResult × RStore :=
  match presented with
  | none => (.missing400, s)
  | some r =>
    if !r.sigOk then (.invalid401, s)
    else
      match s r.userId with
      | none => (.mismatch401, s)
      | some stored =>
        if stored ≠ r then (.mismatch401, s)
        else
          match findById r.userId with
          | none => (.userInvalid401, s)
          | some u =>
            if !u.is_active then (.userInvalid401, s)
            else
              let nt := mint r.userId
              (.success nt, storeSetRefresh s r.userId nt)

/-! Theorems. -/

/-- C1 counterexample: a rememberMe access token lives 7 days
(`exp = 604800` with `iat = 0`), but the blacklist entry written by
`logout` (here at second 0) lasts only 24 hours. Verifying the very same
token at second 100000 — well before its natural expiry — succeeds with
`ok`, so the revoked token is accepted while it would otherwise still be
valid, contradicting the claim. -/
theorem c1_rememberMe_token_outlives_blacklist :
    verifyAfterLogout (fun _ => some ⟨1, true, none⟩) ⟨1, 0, 604800, true⟩
        0 100000 = .ok ⟨1, true, none⟩ ∧ (100000 : Nat) < 604800 := by
  exact ⟨rfl, by decide⟩

/-- C1 (amended): after `logout` blacklists the token at `logoutTime`,
verification at any `t2` before the natural expiry fails with the
revocation failure, PROVIDED the token expires within 24 hours of the
logout (`t.exp ≤ logoutTime + 24h`) — which holds for every non-rememberMe
token, whose lifetime is 24h and which is logged out no earlier than its
issuance. For rememberMe tokens the fixed 24h blacklist TTL can lapse
first (see the counterexample). -/
theorem c1_logout_blacklist_revokes_before_expiry
    (findById : Nat → Option UserRec) (t : Token) (logoutTime t2 : Nat)
    (hcover : t.exp ≤ logoutBlacklistExpiry logoutTime)
    (h2 : t2 < t.exp) :
    verifyAfterLogout findById t logoutTime t2 = .revoked := by
  have hb : logoutBlacklisted logoutTime t2 = true := by
    simp only [logoutBlacklisted, decide_eq_true_eq]
    exact lt_of_lt_of_le h2 hcover
  simp [verifyAfterLogout, authenticateToken, hb]

/-- Witness for C1: a default 24h token (`iat = 0`, `exp = 86400`) logged
out at second 3600 is rejected as revoked at second 50000. -/
theorem c1_logout_blacklist_revokes_before_expiry_witness :
    verifyAfterLogout (fun _ => some ⟨1, true, none⟩) ⟨1, 0, 86400, true⟩
        3600 50000 = .revoked :=
  c1_logout_blacklist_revokes_before_expiry _ _ _ _ (by decide) (by decide)

/-- C2 counterexample: token issued at t0 = 1000 ms (so `iat = 1`),
password changed at t1 = 1500 ms (strictly later), verification at
t2 = 2000 ms (second 2, strictly after the change). Because
`Math.floor(1500/1000) = 1` is not strictly greater than `iat = 1`, the
staleness check does not fire and verification SUCCEEDS, contradicting
the claim that any token issued before a later password change is
rejected as stale. -/
theorem c2_same_second_password_change_not_stale :
    authenticateToken false (fun _ => some ⟨1, true, some 1500⟩) false
        (some ⟨1, 1, 86401, true⟩) 2 = .ok ⟨1, true, some 1500⟩ ∧
      (1000 : Nat) < 1500 ∧ (1500 : Nat) < 2000 := by
  exact ⟨rfl, by decide, by decide⟩

/-- C2 (amended): a token is rejected with the stale-credential failure
(`PASSWORD_CHANGED`) whenever the password change falls in a strictly
later whole second than the claim issued-at (`iat < ⌊pca/1000⌋`; `iat` has
second granularity, so a change within the same second as issuance does
not invalidate) and the token is otherwise verifiable: present, not
blacklisted, well signed, unexpired, with an existing active user. -/
theorem c2_token_stale_after_later_second_password_change
    (findById : Nat → Option UserRec) (t : Token) (now pca : Nat)
    (u : UserRec)
    (hf : findById t.userId = some u)
    (hact : u.is_active = true)
    (hpca : u.password_changed_at = some pca)
    (hsig : t.sigOk = true)
    (hexp : now < t.exp)
    (hiat : t.iat < pca / 1000) :
    authenticateToken false findById false (some t) now = .passwordChanged := by
  simp [authenticateToken, hf, hact, hpca, hsig, hiat, Nat.not_le.mpr hexp]

/-- Witness for C2: token issued at second 10, password changed at
12500 ms, verification at second 20 yields the staleness failure. -/
theorem c2_token_stale_after_later_second_password_change_witness :
    authenticateToken false (fun _ => some ⟨1, true, some 12500⟩) false
        (some ⟨1, 10, 86400, true⟩) 20 = .passwordChanged :=
  c2_token_stale_after_later_second_password_change
    (fun _ => some ⟨1, true, some 12500⟩) ⟨1, 10, 86400, true⟩ 20 12500
    ⟨1, true, some 12500⟩ rfl rfl rfl rfl (by decide) (by decide)

/-- C3 counterexample: a 24h token (`exp = 86400`) logged out at second
82800 has remaining lifetime 3600 s, but the blacklist entry written by
`AuthController.logout` carries the fixed TTL 86400 s — not the remaining
lifetime — and expires at second 169200, outliving the token it revokes
by 23 hours. -/
theorem c3_logout_entry_ttl_not_remaining_lifetime :
    logoutBlacklistTtl ≠ (Token.mk 1 0 86400 true).exp - 82800 ∧
      (Token.mk 1 0 86400 true).exp < logoutBlacklistExpiry 82800 := by
  exact ⟨by decide, by decide⟩

/-- C3 (amended): revocation entries created by the gateway helper
`blacklistToken` do carry a TTL equal to the remaining lifetime of the
token — the entry expires exactly at the token expiry second, so it never
outlives the token — and no entry at all is written for an
already-expired token. Entries created by the user-service `logout`,
however, carry a fixed 24h TTL (`logoutBlacklistTtl`) independent of the
remaining lifetime (see the counterexample). -/
theorem c3_blacklist_helper_entry_dies_with_token (t : Token) (now : Nat) :
    (now < t.exp → blacklistTokenEntry t now = some t.exp) ∧
      (t.exp ≤ now → blacklistTokenEntry t now = none) ∧
      logoutBlacklistTtl = 86400 := by
  refine ⟨fun h => ?_, fun h => ?_, rfl⟩
  · have hpos : blacklistTokenTtl t now > 0 := by
      simp only [blacklistTokenTtl]
      omega
    simp [blacklistTokenEntry, hpos, Nat.add_sub_cancel' (Nat.le_of_lt h)]
  · have hnon : ¬ blacklistTokenTtl t now > 0 := by
      simp only [blacklistTokenTtl]
      omega
    simp [blacklistTokenEntry, hnon]

/-- Witness for C3: the helper entry for a token expiring at second 86400,
written at second 82800, expires exactly at second 86400. -/
theorem c3_blacklist_helper_entry_dies_with_token_witness :
    blacklistTokenEntry ⟨1, 0, 86400, true⟩ 82800 = some 86400 :=
  (c3_blacklist_helper_entry_dies_with_token ⟨1, 0, 86400, true⟩ 82800).1
    (by decide)

/-- C5 (confirmed): the rate limiter fails open on store failure. When the
Counter Store is unreachable or a store call errors, the gateway store
reports `totalHits = 1`, which is admitted for every configured maximum
(all tiers have `max ≥ 1`: general 50000, auth 10000, upload 50, analysis
1000), and the user-service limiter catch admits unconditionally. -/
theorem c5_store_failure_fails_open (max : Nat) (h : 1 ≤ max) :
    gwRequestUnavailable max = .allowed ∧
      gwRequestUnavailable 50000 = .allowed ∧
      gwRequestUnavailable 10000 = .allowed ∧
      gwRequestUnavailable 50 = .allowed ∧
      gwRequestUnavailable 1000 = .allowed ∧
      usRequestOnError = .allowed := by
  refine ⟨?_, rfl, rfl, rfl, rfl, rfl⟩
  simp [gwRequestUnavailable, storeIncrementUnavailable, h]

/-- Witness for C5 at the general-tier maximum. -/
theorem c5_store_failure_fails_open_witness :
    gwRequestUnavailable 50000 = .allowed ∧ usRequestOnError = .allowed :=
  ⟨(c5_store_failure_fails_open 50000 (by decide)).1,
   (c5_store_failure_fails_open 50000 (by decide)).2.2.2.2.2⟩

/-- C6 counterexample: with the revocation store not ready
(`redisReady = false`), the gateway `verifyToken` admits (`ok`) a token
that is in fact blacklisted (`blacklisted = true`) — the revocation check
is skipped and the request is NOT rejected with a 503
dependency-unavailable error, contradicting the fail-closed claim. -/
theorem c6_store_down_skips_revocation_check :
    gwVerifyToken false false true (some ⟨1, 0, 86400, true⟩) 100 = .ok := by
  rfl

/-- C6 (amended): when the revocation store is unavailable the gateway
verifier fails OPEN — it skips the blacklist lookup and admits every
otherwise-valid token, blacklisted or not — while the user-service
verifier fails closed on a store error, but with a 500 server error (its
outer catch), not a 503. -/
theorem c6_store_failure_behavior :
    (∀ (blacklisted : Bool) (t : Token) (now : Nat),
        t.sigOk = true → now < t.exp →
        gwVerifyToken false false blacklisted (some t) now = .ok) ∧
      (∀ (findById : Nat → Option UserRec) (blacklisted : Bool) (t : Token)
          (now : Nat),
        authenticateToken true findById blacklisted (some t) now
          = .serverError) := by
  constructor
  · intro blacklisted t now hsig hexp
    simp [gwVerifyToken, gwCheckJwt, hsig, Nat.not_le.mpr hexp,
      Nat.not_lt.mpr (Nat.le_of_lt hexp)]
  · intro findById blacklisted t now
    rfl

/-- Witness for C6: a valid unexpired token is admitted by the gateway
with the store down even though it is blacklisted, and the user-service
verifier answers 500 on a store error. -/
theorem c6_store_failure_behavior_witness :
    gwVerifyToken false false true (some ⟨2, 0, 86400, true⟩) 50 = .ok ∧
      authenticateToken true (fun _ => none) false
        (some ⟨2, 0, 86400, true⟩) 50 = .serverError :=
  ⟨c6_store_failure_behavior.1 true ⟨2, 0, 86400, true⟩ 50 rfl (by decide),
   c6_store_failure_behavior.2 (fun _ => none) false ⟨2, 0, 86400, true⟩ 50⟩

/-- C10 (confirmed): with no `email` field in the body, the Failed-Attempt
Guard calls `next()` for EVERY possible state of the two failure counters
— in particular when the origin counter is far above its threshold, as the
closed instance shows — and any store error during the checks also results
in admission via the catch. -/
theorem c10_no_email_or_error_admits :
    (∀ (findByEmail : String → Option UserRec) (userAttempts : Nat → Nat)
        (ipAttempts : String → Nat) (ip : String),
        checkFailedAttempts findByEmail userAttempts ipAttempts none ip
          = .next) ∧
      checkFailedAttempts (fun _ => none) (fun _ => 99) (fun _ => 99) none
          ⟨[]⟩ = .next ∧
      checkFailedAttemptsOnError = .next := by
  exact ⟨fun _ _ _ _ => rfl, rfl, rfl⟩

/-- Helper for the in-window run of the gateway limiter: from a live
counter holding `k ≥ 1` whose key expires at `t1 + wsec`, a sequence of
requests all before that expiry drives the count to `k + ts.length`
without touching the expiry, and the j-th overall request (j counted from
`k + 1`) is admitted exactly when `j ≤ max`. -/
theorem gwRun_loaded (wsec max t1 : Nat) (ts : List Nat) :
    ∀ k : Nat, 0 < k → (∀ t ∈ ts, t < t1 + wsec) →
    gwRun wsec max ⟨k, some (t1 + wsec)⟩ ts
      = (⟨k + ts.length, some (t1 + wsec)⟩,
         (List.range' (k + 1) ts.length).map
           (fun j => if j ≤ max then RateDecision.allowed
             else RateDecision.rejected429)) := by
  induction ts with
  | nil => intro k hk _; simp [gwRun]
  | cons t ts ih =>
    intro k hk hts
    have hlive : counterLive ⟨k, some (t1 + wsec)⟩ t = true := by
      simp only [counterLive, Bool.and_eq_true, decide_eq_true_eq]
      exact ⟨hk, hts t (List.mem_cons_self t ts)⟩
    have hne : ¬ (k + 1 = 1) := by omega
    have hstep : storeIncrement wsec ⟨k, some (t1 + wsec)⟩ t
        = (⟨k + 1, some (t1 + wsec)⟩, k + 1) := by
      simp [storeIncrement, hlive, hne]
    have hrec := ih (k + 1) (Nat.succ_pos k)
      (fun x hx => hts x (List.mem_cons_of_mem t hx))
    simp only [gwRun, gwRequest, hstep, hrec, List.length_cons,
      List.range'_succ, List.map_cons]
    refine Prod.ext ?_ rfl
    show (⟨k + 1 + ts.length, some (t1 + wsec)⟩ : Counter)
      = ⟨k + (ts.length + 1), some (t1 + wsec)⟩
    have : k + 1 + ts.length = k + (ts.length + 1) := by omega
    rw [this]

/-- C4 counterexample: the user-service login limiter (window 15 min,
`max = 10` per IP) rejects a request whose bucket already holds 10 — and
leaves the counter at 10: the rejected request is NOT counted, refuting
the claim that the counter is incremented on every request including
rejected ones. -/
theorem c4_us_rejected_request_not_counted :
    usRequest 900000 10 ⟨10, some 900⟩ 100 = (⟨10, some 900⟩, .rejected429) := by
  rfl

/-- C4 (amended): the GATEWAY limiter increments the counter on every
request, rejected ones included, with no rollback (the new count does not
depend on the decision); starting fresh, the j-th in-window request
carries post-increment value j and is admitted exactly when `j ≤ max` —
so request `max + 1` within the window gets the 429; and once the key TTL
has elapsed the next request restarts the count at 1 and is admitted. The
USER-SERVICE limiter enforces the same `N ≤ max` admit / `N + 1` reject
boundary but checks before incrementing: rejected requests do not count.
Its count restarts from zero not by TTL but at each wall-clock-aligned
window boundary: a request touches only the bucket of its own window
start, a request whose window bucket is untouched is admitted with count
restarting at 1 (for `max ≥ 1`), and any request a full window length or
more later falls in a strictly later bucket. -/
theorem c4_rate_window_admission :
    (∀ (wsec max : Nat) (c : Counter) (now : Nat),
        ((gwRequest wsec max c now).1).count
          = (if counterLive c now then c.count else 0) + 1) ∧
      (∀ (wsec max t1 : Nat) (ts : List Nat),
        (∀ t ∈ ts, t < t1 + wsec) →
        (gwRun wsec max freshCounter (t1 :: ts)).2
          = (List.range' 1 (ts.length + 1)).map
              (fun j => if j ≤ max then RateDecision.allowed
                else RateDecision.rejected429)) ∧
      (∀ (wsec max k e now : Nat), e ≤ now → 1 ≤ max →
        gwRequest wsec max ⟨k, some e⟩ now
          = (⟨1, some (now + wsec)⟩, RateDecision.allowed, 1)) ∧
      (∀ (windowMs max : Nat) (b : USBucket) (now : Nat),
        (max ≤ b.count → usRequest windowMs max b now = (b, .rejected429)) ∧
        (b.count < max →
          usRequest windowMs max b now
            = (⟨b.count + 1, some (now + (windowMs + 999) / 1000)⟩,
               .allowed))) ∧
      (∀ (windowMs max : Nat) (s : USStore) (now w : Nat),
        usWindowStart windowMs now ≠ w →
        ((usStoreRequest windowMs max s now).1) w = s w) ∧
      (∀ (windowMs max : Nat) (s : USStore) (now : Nat),
        s (usWindowStart windowMs now) = 0 → 1 ≤ max →
        usStoreRequest windowMs max s now
          = (fun w => if w = usWindowStart windowMs now then 1 else s w,
             .allowed)) ∧
      (∀ (windowMs now1 now2 : Nat), 0 < windowMs →
        now1 + windowMs ≤ now2 →
        usWindowStart windowMs now1 < usWindowStart windowMs now2) := by
  refine ⟨?_, ?_, ?_, ?_, ?_, ?_, ?_⟩
  · intro wsec max c now
    by_cases hl : counterLive c now = true
    · have hcount : 0 < c.count := by
        have h1 := hl
        simp only [counterLive, Bool.and_eq_true, decide_eq_true_eq] at h1
        exact h1.1
      have hne : ¬ (c.count + 1 = 1) := by omega
      simp [gwRequest, storeIncrement, hl, hne]
    · have hl2 : counterLive c now = false := by
        revert hl
        cases counterLive c now <;> simp
      simp [gwRequest, storeIncrement, hl2]
  · intro wsec max t1 ts hts
    have hfresh : counterLive freshCounter t1 = false := by
      simp [counterLive, freshCounter]
    have hfirst : storeIncrement wsec freshCounter t1
        = (⟨1, some (t1 + wsec)⟩, 1) := by
      simp [storeIncrement, hfresh]
    simp only [gwRun, gwRequest, hfirst,
      gwRun_loaded wsec max t1 ts 1 Nat.one_pos hts, List.range'_succ,
      List.map_cons]
  · intro wsec max k e now he hmax
    have hdead : counterLive ⟨k, some e⟩ now = false := by
      simp only [counterLive, Bool.and_eq_true, decide_eq_true_eq]
      simp only [Bool.and_eq_false_iff]
      right
      simp [Nat.not_lt.mpr he]
    simp [gwRequest, storeIncrement, hdead, hmax]
  · intro windowMs max b now
    constructor
    · intro h
      simp [usRequest, h]
    · intro h
      simp [usRequest, Nat.not_le.mpr h]
  · intro windowMs max s now w hne
    simp only [usStoreRequest]
    split
    · rfl
    · exact if_neg fun h => hne h.symm
  · intro windowMs max s now h0 hmax
    have hnle : ¬ max ≤ s (usWindowStart windowMs now) := by
      rw [h0]
      omega
    simp [usStoreRequest, hnle, h0]
    omega
  · intro windowMs now1 now2 hpos hle
    have h1 : now1 / windowMs + 1 ≤ now2 / windowMs := by
      have h2 : (now1 + windowMs) / windowMs ≤ now2 / windowMs :=
        Nat.div_le_div_right hle
      rwa [Nat.add_div_right _ hpos] at h2
    have h2 : now1 / windowMs * windowMs
        < (now1 / windowMs + 1) * windowMs := by
      rw [Nat.succ_mul]
      exact Nat.lt_add_of_pos_right hpos
    have h3 : (now1 / windowMs + 1) * windowMs
        ≤ now2 / windowMs * windowMs :=
      Nat.mul_le_mul_right _ h1
    exact lt_of_lt_of_le h2 h3

/-- Witness for C4: the short test window from the spec (window 2 s,
`max = 2`) — three immediate requests through the gateway limiter, the
first two admitted, the third rejected with 429; and for the user-service
limiter, a request in a fresh aligned window (second 900001, window
900000 ms) is admitted although the bucket of the previous window holds a
count of 10, already at the maximum: the count restarted at the
boundary. -/
theorem c4_rate_window_admission_witness :
    (gwRun 2 2 freshCounter [10, 10, 11]).2
      = [RateDecision.allowed, RateDecision.allowed,
         RateDecision.rejected429] ∧
      (usStoreRequest 900000 10 (fun w => if w = 0 then 10 else 0)
          900001).2 = RateDecision.allowed := by
  constructor
  · have h := c4_rate_window_admission.2.1 2 2 10 [10, 11] (by decide)
    simpa using h
  · have h := c4_rate_window_admission.2.2.2.2.2.1 900000 10
      (fun w => if w = 0 then 10 else 0) 900001 (by decide) (by decide)
    rw [h]

/-- C7 (confirmed): an identity whose failure counter has reached 5 within
the lockout window gets 429 `ACCOUNT_LOCKED` at the next login attempt,
decided by the guard before the handler runs — the outcome is the same for
every password-check oracle `pwOk` and password `pw`, so the password is
never verified. An attempt from the same origin against a different,
not-locked identity is governed solely by the origin counter with its
threshold of 10: it is blocked (`IP_BLOCKED`) exactly when that counter
has reached 10 and passes the guard otherwise. -/
theorem c7_identity_lockout_before_password_check
    (findByEmail : String → Option UserRec)
    (userAttempts : Nat → Nat) (ipAttempts : String → Nat)
    (pwOk : Nat → String → Bool) (e e2 ip pw : String) (u u2 : UserRec)
    (h1 : findByEmail e = some u) (h2 : 5 ≤ userAttempts u.id)
    (h3 : findByEmail e2 = some u2) (h4 : userAttempts u2.id < 5) :
    loginPipeline findByEmail userAttempts ipAttempts pwOk (some e) ip pw
        = .locked429 ∧
      checkFailedAttempts findByEmail userAttempts ipAttempts (some e2) ip
        = (if 10 ≤ ipAttempts ip then .ipBlocked429 else .next) := by
  constructor
  · simp [loginPipeline, checkFailedAttempts, h1, h2]
  · simp [checkFailedAttempts, h3, Nat.not_le.mpr h4]

/-- Witness for C7: alice (id 1) has 5 recorded failures and is locked out
regardless of the submitted password; bob (id 2), from the same origin
with 6 origin failures, passes the guard. -/
theorem c7_identity_lockout_before_password_check_witness :
    loginPipeline
        (fun s => if s = ⟨[Char.ofNat 97]⟩ then some ⟨1, true, none⟩
          else some ⟨2, true, none⟩)
        (fun uid => if uid = 1 then 5 else 0) (fun _ => 6)
        (fun _ _ => true) (some ⟨[Char.ofNat 97]⟩) ⟨[Char.ofNat 105]⟩
        ⟨[Char.ofNat 112]⟩ = .locked429 ∧
      checkFailedAttempts
        (fun s => if s = ⟨[Char.ofNat 97]⟩ then some ⟨1, true, none⟩
          else some ⟨2, true, none⟩)
        (fun uid => if uid = 1 then 5 else 0) (fun _ => 6)
        (some ⟨[Char.ofNat 98]⟩) ⟨[Char.ofNat 105]⟩ = .next := by
  have h := c7_identity_lockout_before_password_check
    (fun s => if s = ⟨[Char.ofNat 97]⟩ then some ⟨1, true, none⟩
      else some ⟨2, true, none⟩)
    (fun uid => if uid = 1 then 5 else 0) (fun _ => 6) (fun _ _ => true)
    ⟨[Char.ofNat 97]⟩ ⟨[Char.ofNat 98]⟩ ⟨[Char.ofNat 105]⟩
    ⟨[Char.ofNat 112]⟩ ⟨1, true, none⟩ ⟨2, true, none⟩
    (by decide) (by decide) (by decide) (by decide)
  exact ⟨h.1, by rw [h.2]; decide⟩

/-- C8 (confirmed): the refresh-token store keys one value per identity,
so at most one token is stored per identity at any time; each issuance
path (`register` step 5, `login` step 6, `refreshToken` step 5) writes the
single per-identity key, overwriting the previous value; and the refresh
endpoint answers 401 (leaving the store untouched) whenever the presented,
well-signed token differs from the stored one, and on acceptance it is
exactly the stored token that was presented, and the newly minted token
overwrites it. -/
theorem c8_single_refresh_token_per_identity :
    (∀ (s : RStore) (uid : Nat) (t1 t2 : RToken),
        s uid = some t1 → s uid = some t2 → t1 = t2) ∧
      (∀ (s : RStore) (uid : Nat) (t : RToken),
        storeSetRefresh s uid t uid = some t ∧
        ∀ v : Nat, v ≠ uid → storeSetRefresh s uid t v = s v) ∧
      (∀ (s : RStore) (findById : Nat → Option UserRec) (r : RToken)
          (mint : Nat → RToken),
        r.sigOk = true → s r.userId ≠ some r →
        refreshEndpoint s findById (some r) mint = (.mismatch401, s)) ∧
      (∀ (s : RStore) (findById : Nat → Option UserRec) (r : RToken)
          (mint : Nat → RToken) (u : UserRec),
        r.sigOk = true → s r.userId = some r →
        findById r.userId = some u → u.is_active = true →
        refreshEndpoint s findById (some r) mint
          = (.success (mint r.userId),
             storeSetRefresh s r.userId (mint r.userId))) := by
  refine ⟨?_, ?_, ?_, ?_⟩
  · intro s uid t1 t2 ha hb
    rw [ha] at hb
    exact Option.some.inj hb
  · intro s uid t
    refine ⟨by simp [storeSetRefresh], fun v hv => by simp [storeSetRefresh, hv]⟩
  · intro s findById r mint hsig hne
    cases hs : s r.userId with
    | none => simp [refreshEndpoint, hsig, hs]
    | some stored =>
      have hne2 : stored ≠ r := by
        intro h
        exact hne (h ▸ hs)
      simp [refreshEndpoint, hsig, hs, hne2]
  · intro s findById r mint u hsig hs hf hact
    simp [refreshEndpoint, hsig, hs, hf, hact]

/-- Witness for C8: with token nonce 0 stored for user 1, presenting the
distinct (well-signed) token nonce 5 yields the 401 mismatch and leaves
the store untouched. -/
theorem c8_single_refresh_token_per_identity_witness :
    refreshEndpoint (fun v => if v = 1 then some ⟨1, 0, true⟩ else none)
        (fun _ => some ⟨1, true, none⟩) (some ⟨1, 5, true⟩)
        (fun uid => ⟨uid, 7, true⟩)
      = (.mismatch401, fun v => if v = 1 then some ⟨1, 0, true⟩ else none) :=
  c8_single_refresh_token_per_identity.2.2.1
    (fun v => if v = 1 then some ⟨1, 0, true⟩ else none)
    (fun _ => some ⟨1, true, none⟩) ⟨1, 5, true⟩ (fun uid => ⟨uid, 7, true⟩)
    rfl (by decide)

/-- C9 counterexample: the user-service limiter re-attaches the window
expiry on a NON-first counted request — the bucket already holding one
request with expiry at second 905 gets a fresh expiry `some 1000` on its
second request at second 100 — and its buckets are wall-clock aligned:
two instants 2 ms apart (899999 and 900001, window 900000 ms) fall in
different buckets. Both refute the claim for this limiter. -/
theorem c9_us_limiter_refreshes_ttl_and_aligns :
    ((usRequest 900000 10 ⟨1, some 905⟩ 100).1).expiresAt = some 1000 ∧
      ((usRequest 900000 10 ⟨1, some 905⟩ 100).1).expiresAt
        ≠ (USBucket.mk 1 (some 905)).expiresAt ∧
      usWindowStart 900000 899999 ≠ usWindowStart 900000 900001 := by
  exact ⟨rfl, by decide, by decide⟩

/-- C9 (amended): the GATEWAY store attaches the expiry exactly on the
first increment of a cycle — an absent or expired key restarts at count 1
with expiry one window length after that first request (a rolling window,
anchored to the first request, not to a clock boundary) — and any further
in-window increment leaves the expiry untouched. The USER-SERVICE limiter
behaves differently: it re-issues the expiry on every counted request and
keys its buckets by the wall-clock-aligned window start. -/
theorem c9_gateway_expiry_on_first_increment_only :
    (∀ (wsec now : Nat) (c : Counter), counterLive c now = false →
        storeIncrement wsec c now = (⟨1, some (now + wsec)⟩, 1)) ∧
      (∀ (wsec now : Nat) (c : Counter), counterLive c now = true →
        ((storeIncrement wsec c now).1).expiresAt = c.expiresAt ∧
        (storeIncrement wsec c now).2 = c.count + 1) ∧
      (∀ (windowMs max now : Nat) (b : USBucket), b.count < max →
        ((usRequest windowMs max b now).1).expiresAt
          = some (now + (windowMs + 999) / 1000)) := by
  refine ⟨?_, ?_, ?_⟩
  · intro wsec now c h
    simp [storeIncrement, h]
  · intro wsec now c h
    have hcount : 0 < c.count := by
      have h1 := h
      simp only [counterLive, Bool.and_eq_true, decide_eq_true_eq] at h1
      exact h1.1
    have hne : ¬ (c.count + 1 = 1) := by omega
    exact ⟨by simp [storeIncrement, h, hne], by simp [storeIncrement, h, hne]⟩
  · intro windowMs max now b h
    simp [usRequest, Nat.not_le.mpr h]

/-- Witness for C9: a fresh key first incremented at second 70 with a
900 s window gets expiry 970; a live key is incremented to 2 leaving its
expiry at 970; the user-service bucket refreshes its expiry. -/
theorem c9_gateway_expiry_on_first_increment_only_witness :
    storeIncrement 900 freshCounter 70 = (⟨1, some 970⟩, 1) ∧
      ((storeIncrement 900 ⟨1, some 970⟩ 80).1).expiresAt = some 970 ∧
      ((usRequest 900000 10 ⟨0, none⟩ 70).1).expiresAt = some 970 :=
  ⟨c9_gateway_expiry_on_first_increment_only.1 900 70 freshCounter
     (by decide),
   (c9_gateway_expiry_on_first_increment_only.2.1 900 80 ⟨1, some 970⟩
     (by decide)).1,
   c9_gateway_expiry_on_first_increment_only.2.2 900000 10 70 ⟨0, none⟩
     (by decide)⟩

end AiCodeReview
